import Mathlib

/-!
Shallow embedding of `library/panos_security_rule.py` (Ansible module for
PAN-OS security rules) and proofs about its rule builder, rulebase locator
and the add/delete/find convergence operations.

The module's own logic is pure parameter mapping plus a linear dispatch;
the external Device Client (pan-python / pandevice) is modelled abstractly:
the results of its remote calls (`refresh_devices`, `refreshall`, and
whether `create()` / `delete()` raise `PanXapiError`) are inputs of the
model (`Env`), and the remote calls issued by a run are recorded in a
trace (`RemoteCall`).
-/

namespace PanosSR

/-- Python string-or-None value: `none` is Python `None`, `some s` a string. -/
abbrev PyStr := Option String

/-- Python value that can flow into the `devicegroup` position of
`get_rulebase`: in `main` the variable `dev_group` is either `None` or the
boolean returned by `get_devicegroup`. -/
inductive PyVal where
  | pyNone : PyVal
  | pyBool : Bool → PyVal
  | pyStr : String → PyVal
deriving DecidableEq, Repr

/-- Python truthiness of a string-or-None value (`None` and `""` are falsy),
as used by the guard `if devicegroup and isinstance(device, panorama.Panorama)`. -/
def pyTruthyStr : PyStr → Bool
  | none => false
  | some s => !(s == "")

/-- Rendering of a string-or-None value by Python %s formatting. -/
def pyShow : PyStr → String
  | none => "None"
  | some s => s

/-- The pandevice `SecurityRule` object as built by `create_security_rule`:
the constructor arguments, plus the optionally assigned attributes
(`tag`, `group`, `virus`, ...). For an optional attribute, `none` means the
attribute was never assigned by the module; `some v` means it was assigned
the Python value `v` (which may itself be `None`). -/
structure SecurityRule where
  name : String
  description : String
  tozone : List String
  fromzone : List String
  source : List String
  source_user : List String
  destination : List String
  category : List String
  application : List String
  service : List String
  hip_profiles : List String
  log_start : Bool
  log_end : Bool
  type : String
  action : String
  tag : Option PyStr := none
  group : Option PyStr := none
  virus : Option PyStr := none
  vulnerability : Option PyStr := none
  spyware : Option PyStr := none
  url_filtering : Option PyStr := none
  file_blocking : Option PyStr := none
  data_filtering : Option PyStr := none
  wildfire_analysis : Option PyStr := none
deriving DecidableEq, Repr

/-- The `**kwargs` dict received by `create_security_rule`. Keys accessed
unconditionally (`kwargs['rule_name']`, ...) are plain fields; keys tested
with `'key' in kwargs` are `Option PyStr`: `none` means the key is absent
from the dict, `some v` that it is present with Python value `v`. -/
structure BuildKwargs where
  rule_name : String
  description : String
  to_zone : List String := ["any"]
  from_zone : List String := ["any"]
  source : List String := ["any"]
  source_user : List String := ["any"]
  destination : List String := ["any"]
  category : List String := ["any"]
  application : List String := ["any"]
  service : List String := ["application-default"]
  hip_profiles : List String := ["any"]
  log_start : Bool := false
  log_end : Bool := true
  rule_type : String := "universal"
  action : String := "allow"
  tag : Option PyStr := none
  group_profile : Option PyStr := none
  antivirus : Option PyStr := none
  vulnerability : Option PyStr := none
  spyware : Option PyStr := none
  url_filtering : Option PyStr := none
  file_blocking : Option PyStr := none
  data_filtering : Option PyStr := none
  wildfire_analysis : Option PyStr := none
deriving DecidableEq, Repr

/-- `create_security_rule(**kwargs)`: builds the `SecurityRule` from the
always-present keys, then attaches `tag` if the key is present; for the
profile settings, if the key `group_profile` is in the dict its value is
assigned to `.group` and the seven individual profile keys are not looked
at; otherwise each individual profile key present in the dict is assigned. -/
def create_security_rule (kwargs : BuildKwargs) : SecurityRule :=
  let security_rule : SecurityRule :=
    { name := kwargs.rule_name
      description := kwargs.description
      tozone := kwargs.to_zone
      fromzone := kwargs.from_zone
      source := kwargs.source
      source_user := kwargs.source_user
      destination := kwargs.destination
      category := kwargs.category
      application := kwargs.application
      service := kwargs.service
      hip_profiles := kwargs.hip_profiles
      log_start := kwargs.log_start
      log_end := kwargs.log_end
      type := kwargs.rule_type
      action := kwargs.action }
  let security_rule :=
    match kwargs.tag with
    | some t => { security_rule with tag := some t }
    | none => security_rule
  match kwargs.group_profile with
  | some g => { security_rule with group := some g }
  | none =>
    let security_rule :=
      match kwargs.antivirus with
      | some v => { security_rule with virus := some v }
      | none => security_rule
    let security_rule :=
      match kwargs.vulnerability with
      | some v => { security_rule with vulnerability := some v }
      | none => security_rule
    let security_rule :=
      match kwargs.spyware with
      | some v => { security_rule with spyware := some v }
      | none => security_rule
    let security_rule :=
      match kwargs.url_filtering with
      | some v => { security_rule with url_filtering := some v }
      | none => security_rule
    let security_rule :=
      match kwargs.file_blocking with
      | some v => { security_rule with file_blocking := some v }
      | none => security_rule
    let security_rule :=
      match kwargs.data_filtering with
      | some v => { security_rule with data_filtering := some v }
      | none => security_rule
    match kwargs.wildfire_analysis with
    | some v => { security_rule with wildfire_analysis := some v }
    | none => security_rule

/-- An object returned by the Device Client's `refresh_devices()` on a
Panorama instance: either a `pandevice.panorama.DeviceGroup` (carrying its
name) or some other object (filtered out by the `isinstance` check). -/
inductive RefreshedObj where
  | deviceGroup (dgName : String) : RefreshedObj
  | other : RefreshedObj
deriving DecidableEq, Repr

/-- The device returned by `base.PanDevice.create_from_device`: a Firewall
or a Panorama. A Panorama carries the device groups that a
`refresh_devices()` call against it returns. -/
inductive Device where
  | firewall : Device
  | panorama (dev_grps : List RefreshedObj) : Device
deriving DecidableEq, Repr

/-- The `isinstance(device, panorama.Panorama)` test. -/
def Device.isPanorama : Device → Bool
  | .firewall => false
  | .panorama _ => true

/-- Result of the Device Client call `device.refresh_devices()`. -/
def Device.refreshDevicesResult : Device → List RefreshedObj
  | .firewall => []
  | .panorama gs => gs

/-- `get_devicegroup(device, devicegroup)`: refreshes the devices and
returns True when some refreshed `DeviceGroup` has the requested name
(a name never equals Python `None`, so the comparison with a `none`
argument is false). -/
def get_devicegroup (device : Device) (devicegroup : PyStr) : Bool :=
  device.refreshDevicesResult.any fun grp =>
    match grp with
    | .deviceGroup n => some n == devicegroup
    | .other => false

/-- Parent of the located rulebase: either the flat `Rulebase()` added
directly to a Firewall, or a `PreRulebase()` added under a
`DeviceGroup(devicegroup)` whose name is whatever Python value was passed
as the `devicegroup` argument of `get_rulebase`. -/
inductive RBParent where
  | firewallFlat : RBParent
  | preUnderGroup (dgName : PyVal) : RBParent
deriving DecidableEq, Repr

/-- The located rulebase handle after `SecurityRule.refreshall(rulebase)`:
its position in the object tree and its refreshed child rules. -/
structure Rulebase where
  parent : RBParent
  rules : List SecurityRule
deriving DecidableEq, Repr

/-- `get_rulebase(device, devicegroup)`: on a Firewall, a flat `Rulebase()`
is added to the device; on a Panorama, a `DeviceGroup(devicegroup)` is
added to the device and a `PreRulebase()` under it. Then
`SecurityRule.refreshall(rulebase)` fills the rulebase with the remote
rules (supplied here as `refreshed`, a Device Client result). -/
def get_rulebase (device : Device) (devicegroup : PyVal)
    (refreshed : List SecurityRule) : Rulebase :=
  match device with
  | .firewall => { parent := .firewallFlat, rules := refreshed }
  | .panorama _ => { parent := .preUnderGroup devicegroup, rules := refreshed }

/-- `find_rule(rulebase, rule_name)`: `rulebase.find(rule_name)` returns
the first child rule with that name, else a falsy result (`False` in the
source, `none` here). -/
def find_rule (rulebase : Rulebase) (rule_name : String) : Option SecurityRule :=
  rulebase.rules.find? fun r => r.name == rule_name

/-- `add_rule(rulebase, sec_rule)`: if the rulebase is truthy (a located
`Rulebase` object always is; only the `False` returned by `get_rulebase`
for an unrecognized device is falsy), the rule is attached and created
remotely and True is returned, else False. -/
def add_rule (rulebase : Option Rulebase) (sec_rule : SecurityRule) : Bool :=
  match rulebase, sec_rule with
  | some _, _ => true
  | none, _ => false

/-- The module parameters after `AnsibleModule` has applied the
`argument_spec` defaults. Parameters declared with no default are Python
`None` when the playbook does not set them (`PyStr` with default `none`). -/
structure ModuleParams where
  ip_address : String
  password : PyStr := none
  username : String := "admin"
  api_key : PyStr := none
  operation : String
  rule_name : String
  description : String := ""
  tag : PyStr := none
  to_zone : List String := ["any"]
  from_zone : List String := ["any"]
  source : List String := ["any"]
  source_user : List String := ["any"]
  destination : List String := ["any"]
  category : List String := ["any"]
  application : List String := ["any"]
  service : List String := ["application-default"]
  hip_profiles : List String := ["any"]
  group_profile : PyStr := none
  antivirus : PyStr := none
  vulnerability : PyStr := none
  spyware : PyStr := none
  url_filtering : PyStr := none
  file_blocking : PyStr := none
  data_filtering : PyStr := none
  wildfire_analysis : PyStr := none
  log_start : Bool := false
  log_end : Bool := true
  rule_type : String := "universal"
  action : String := "allow"
  devicegroup : PyStr := none
deriving DecidableEq, Repr

/-- The `choices` list of the `operation` entry of `argument_spec`: the
Argument Source rejects any other value before `main`'s dispatch runs. -/
def validOperation (op : String) : Bool :=
  op == "add" || op == "delete" || op == "find"

/-- The parameters marked `required=True` in `argument_spec`. -/
def requiredParams : List String :=
  ["ip_address", "operation", "rule_name"]

/-- The keyword dict that `main`'s add branch passes to
`create_security_rule` (lines 458-483): every key is passed explicitly,
so every key is present in the dict, with the raw module parameter
(possibly Python `None`) as its value. -/
def mainBuildKwargs (p : ModuleParams) : BuildKwargs :=
  { rule_name := p.rule_name
    description := p.description
    tag := some p.tag
    from_zone := p.from_zone
    to_zone := p.to_zone
    source := p.source
    source_user := p.source_user
    destination := p.destination
    category := p.category
    application := p.application
    service := p.service
    hip_profiles := p.hip_profiles
    group_profile := some p.group_profile
    antivirus := some p.antivirus
    vulnerability := some p.vulnerability
    spyware := some p.spyware
    url_filtering := some p.url_filtering
    file_blocking := some p.file_blocking
    data_filtering := some p.data_filtering
    wildfire_analysis := some p.wildfire_analysis
    log_start := p.log_start
    log_end := p.log_end
    rule_type := p.rule_type
    action := p.action }

/-- Environment of one invocation: whether the import of the Device Client
libraries succeeded (`HAS_LIB`), the connected device, and the outcomes of
the remote calls the Device Client may perform (refreshed rules, and the
`PanXapiError` message raised by `delete()` / `create()`, if any). -/
structure Env where
  hasLib : Bool
  device : Device
  refreshedRules : List SecurityRule
  deleteError : Option String := none
  createError : Option String := none
deriving DecidableEq, Repr

/-- A remote call issued through the Device Client, in order. -/
inductive RemoteCall where
  | connect : RemoteCall
  | refreshDevices : RemoteCall
  | refreshRules : RemoteCall
  | createRule (r : SecurityRule) : RemoteCall
  | deleteRule (ruleName : String) : RemoteCall
deriving DecidableEq, Repr

/-- Which terminal branch of `main` the invocation ended in. -/
inductive Branch where
  | missingLib : Branch
  | dgNotFound : Branch
  | findB : Branch
  | deleteB : Branch
  | addB : Branch
  | invalidB : Branch
deriving DecidableEq, Repr

/-- The hierarchical dump produced for `find`:
`xmltodict.parse(match.element_str())` rendered by `json.dumps`. Modelled
from the spec: the Device Client serialization (not part of this
repository) renders the rule as an entry node carrying the rule name and
its body. -/
structure RuleDump where
  entryName : String
  entry : SecurityRule
deriving DecidableEq, Repr

/-- Serialization of a matched rule for the find branch. -/
def ruleDump (r : SecurityRule) : RuleDump :=
  { entryName := r.name, entry := r }

/-- Terminal report of the invocation: `module.exit_json` (change flag,
message, and for find the dumped rule) or `module.fail_json` (message
only, no change is reported). -/
inductive ModuleResult where
  | exitJson (changed : Bool) (msg : String) (stdout_lines : Option RuleDump) : ModuleResult
  | failJson (msg : String) : ModuleResult
deriving DecidableEq, Repr

/-- Everything observable about one run of `main`. -/
structure MainRun where
  result : ModuleResult
  calls : List RemoteCall
  branch : Branch
  rulebase : Option Rulebase
deriving DecidableEq, Repr

/-- Guard of the devicegroup validation in `main` (line 416):
`devicegroup and isinstance(device, panorama.Panorama)`. -/
def dgChecked (env : Env) (p : ModuleParams) : Bool :=
  pyTruthyStr p.devicegroup && env.device.isPanorama

/-- True when the devicegroup validation runs and `get_devicegroup`
returns False, i.e. `main` takes the device-group-not-found failure. -/
def dgCheckFails (env : Env) (p : ModuleParams) : Bool :=
  dgChecked env p && !(get_devicegroup env.device p.devicegroup)

/-- The Python value of the variable `dev_group` when line 427
(`rulebase = get_rulebase(device, dev_group)`) is reached: `None` when the
guard was skipped, else the boolean `True` returned by `get_devicegroup`
(NOT the device-group name). -/
def dev_groupVal (env : Env) (p : ModuleParams) : PyVal :=
  if dgChecked env p then .pyBool true else .pyNone

/-- The rulebase `main` locates at line 427. -/
def locatedRulebase (env : Env) (p : ModuleParams) : Rulebase :=
  get_rulebase env.device (dev_groupVal env p) env.refreshedRules

/-- Remote calls issued before the operation dispatch: the connection,
the `refresh_devices` of `get_devicegroup` when the guard ran, and the
`refreshall` of `get_rulebase`. -/
def preCalls (env : Env) (p : ModuleParams) : List RemoteCall :=
  if dgChecked env p then [.connect, .refreshDevices, .refreshRules]
  else [.connect, .refreshRules]

/-- Failure message of line 423. -/
def dgNotFoundMsg (devicegroup : PyStr) : String :=
  "\x27" ++ pyShow devicegroup ++
    "\x27 device group not found in Panorama. Is the name correct?"

/-- Failure message of lines 441 and 455. -/
def ruleNotFoundMsg (rule_name : String) : String :=
  "Rule \x27" ++ rule_name ++ "\x27 not found. Is the name correct?"

/-- Success message of line 453. -/
def deleteOkMsg (rule_name : String) : String :=
  "Rule \x27" ++ rule_name ++ "\x27 successfully deleted"

/-- Success message of line 488. -/
def addOkMsg (rule_name : String) : String :=
  "Rule \x27" ++ rule_name ++ "\x27 successfully added"

/-- The operation dispatch of `main` (lines 429-490), reached once the
libraries are loaded and the devicegroup validation has not failed: the
find / delete / add branches over the located rulebase, with the trailing
invalid-action failure. -/
def dispatchRun (env : Env) (p : ModuleParams) : MainRun :=
  if p.operation = "find" then
    match find_rule (locatedRulebase env p) p.rule_name with
    | some m =>
      { result := .exitJson false "Rule matched" (some (ruleDump m))
        calls := preCalls env p, branch := .findB
        rulebase := some (locatedRulebase env p) }
    | none =>
      { result := .failJson (ruleNotFoundMsg p.rule_name)
        calls := preCalls env p, branch := .findB
        rulebase := some (locatedRulebase env p) }
  else if p.operation = "delete" then
    match find_rule (locatedRulebase env p) p.rule_name with
    | some m =>
      match env.deleteError with
      | some emsg =>
        { result := .failJson emsg
          calls := preCalls env p ++ [.deleteRule m.name], branch := .deleteB
          rulebase := some (locatedRulebase env p) }
      | none =>
        { result := .exitJson true (deleteOkMsg p.rule_name) none
          calls := preCalls env p ++ [.deleteRule m.name], branch := .deleteB
          rulebase := some (locatedRulebase env p) }
    | none =>
      { result := .failJson (ruleNotFoundMsg p.rule_name)
        calls := preCalls env p, branch := .deleteB
        rulebase := some (locatedRulebase env p) }
  else if p.operation = "add" then
    match env.createError with
    | some emsg =>
      { result := .failJson emsg
        calls := preCalls env p
          ++ [.createRule (create_security_rule (mainBuildKwargs p))]
        branch := .addB, rulebase := some (locatedRulebase env p) }
    | none =>
      { result := .exitJson
          (add_rule (some (locatedRulebase env p))
            (create_security_rule (mainBuildKwargs p)))
          (addOkMsg p.rule_name) none
        calls := preCalls env p
          ++ [.createRule (create_security_rule (mainBuildKwargs p))]
        branch := .addB, rulebase := some (locatedRulebase env p) }
  else
    { result := .failJson "Invalid action"
      calls := preCalls env p, branch := .invalidB
      rulebase := some (locatedRulebase env p) }

/-- One run of `main` (lines 375-490): the HAS_LIB fail-fast (line 377),
the devicegroup validation against a Panorama (lines 414-424), the
rulebase location (line 427), then the operation dispatch. -/
def mainRun (env : Env) (p : ModuleParams) : MainRun :=
  if env.hasLib = false then
    { result := .failJson "Missing required libraries."
      calls := [], branch := .missingLib, rulebase := none }
  else if dgCheckFails env p then
    { result := .failJson (dgNotFoundMsg p.devicegroup)
      calls := [.connect, .refreshDevices], branch := .dgNotFound, rulebase := none }
  else
    dispatchRun env p

end PanosSR

namespace PanosSR

/-- Helper: past the library and devicegroup checks, `main` runs the
operation dispatch. -/
theorem mainRun_eq_dispatch (env : Env) (p : ModuleParams)
    (hlib : env.hasLib = true) (hdg : dgCheckFails env p = false) :
    mainRun env p = dispatchRun env p := by
  unfold mainRun
  rw [hlib, hdg]
  simp

/-- Helper: the operation dispatch always records the located rulebase. -/
theorem dispatchRun_rulebase (env : Env) (p : ModuleParams) :
    (dispatchRun env p).rulebase = some (locatedRulebase env p) := by
  unfold dispatchRun
  repeat' split
  all_goals rfl

/-- Helper: the operation dispatch ends in one of its four branches. -/
theorem dispatchRun_branch (env : Env) (p : ModuleParams) :
    (dispatchRun env p).branch = .findB ∨ (dispatchRun env p).branch = .deleteB ∨
    (dispatchRun env p).branch = .addB ∨ (dispatchRun env p).branch = .invalidB := by
  unfold dispatchRun
  repeat' split
  all_goals simp

/-- Helper: a rule returned by `find_rule` bears the searched name. -/
theorem find_rule_name_eq (rb : Rulebase) (n : String) (m : SecurityRule)
    (h : find_rule rb n = some m) : m.name = n := by
  unfold find_rule at h
  have hp := List.find?_some h
  simpa using hp

/-- C1: whenever the `group_profile` key is present in the build kwargs,
`create_security_rule` sets the group profile of the resulting rule to the
supplied value and attaches none of the seven individual profile fields,
even if their keys are also present in the kwargs. -/
theorem c1_group_profile_suppresses_individuals
    (kwargs : BuildKwargs) (g : PyStr)
    (h : kwargs.group_profile = some g) :
    (create_security_rule kwargs).group = some g ∧
    (create_security_rule kwargs).virus = none ∧
    (create_security_rule kwargs).vulnerability = none ∧
    (create_security_rule kwargs).spyware = none ∧
    (create_security_rule kwargs).url_filtering = none ∧
    (create_security_rule kwargs).file_blocking = none ∧
    (create_security_rule kwargs).data_filtering = none ∧
    (create_security_rule kwargs).wildfire_analysis = none := by
  unfold create_security_rule
  rw [h]
  cases kwargs.tag <;>
    exact ⟨rfl, rfl, rfl, rfl, rfl, rfl, rfl, rfl⟩

/-- Kwargs with `group_profile` present along with all seven individual
profile keys. -/
def allProfilesKwargs : BuildKwargs :=
  { rule_name := "Allow HTTP w profile"
    description := ""
    tag := some none
    group_profile := some (some "grp")
    antivirus := some (some "default")
    vulnerability := some (some "default")
    spyware := some (some "default")
    url_filtering := some (some "default")
    file_blocking := some (some "default")
    data_filtering := some (some "default")
    wildfire_analysis := some (some "default") }

theorem c1_witness :
    allProfilesKwargs.group_profile = some (some "grp") ∧
    ((create_security_rule allProfilesKwargs).group = some (some "grp") ∧
     (create_security_rule allProfilesKwargs).virus = none ∧
     (create_security_rule allProfilesKwargs).vulnerability = none ∧
     (create_security_rule allProfilesKwargs).spyware = none ∧
     (create_security_rule allProfilesKwargs).url_filtering = none ∧
     (create_security_rule allProfilesKwargs).file_blocking = none ∧
     (create_security_rule allProfilesKwargs).data_filtering = none ∧
     (create_security_rule allProfilesKwargs).wildfire_analysis = none) :=
  ⟨rfl, c1_group_profile_suppresses_individuals allProfilesKwargs (some "grp") rfl⟩

/-- The third EXAMPLES play of the module documentation (lines 198-212):
an add that relies on individual security profiles, with `group_profile`
left unset. -/
def profileExampleParams : ModuleParams :=
  { ip_address := "10.5.172.91"
    password := some "paloalto"
    operation := "add"
    rule_name := "Allow HTTP w profile"
    log_start := false
    log_end := true
    action := "allow"
    antivirus := some "default"
    vulnerability := some "default"
    spyware := some "default"
    url_filtering := some "default"
    wildfire_analysis := some "default" }

/-- Firewall environment whose remote calls all succeed. -/
def fwEnvOk : Env :=
  { hasLib := true, device := .firewall, refreshedRules := [] }

/-- C2 (failing-input evaluation): the module documentation's own example
supplies `antivirus = "default"` (and other individual profiles) without
`group_profile`, yet the rule built by `main`'s add branch has no
antivirus profile attached: `main` forwards `group_profile=group_profile`
so the key is always present in the kwargs (with value Python `None`),
the presence check `'group_profile' in kwargs` takes the group branch,
`.group` is assigned `None`, and the individual-profile branch is dead
code on this path. -/
theorem c2_main_add_drops_individual_profiles :
    profileExampleParams.group_profile = none ∧
    profileExampleParams.antivirus = some "default" ∧
    (mainBuildKwargs profileExampleParams).group_profile = some none ∧
    (create_security_rule (mainBuildKwargs profileExampleParams)).group = some none ∧
    (create_security_rule (mainBuildKwargs profileExampleParams)).virus = none ∧
    (create_security_rule (mainBuildKwargs profileExampleParams)).vulnerability = none ∧
    (create_security_rule (mainBuildKwargs profileExampleParams)).spyware = none ∧
    (create_security_rule (mainBuildKwargs profileExampleParams)).url_filtering = none ∧
    (create_security_rule (mainBuildKwargs profileExampleParams)).wildfire_analysis = none ∧
    (mainRun fwEnvOk profileExampleParams).result =
      .exitJson true (addOkMsg "Allow HTTP w profile") none := by
  decide

end PanosSR

namespace PanosSR

/-- C3: whenever the invocation reaches the add branch (libraries loaded,
devicegroup validation not failing) and the remote create call does not
raise, `main` exits with changed=true and the success message — for every
environment, in particular regardless of the rules already present in the
refreshed rulebase (no duplicate-name pre-check exists on this path). -/
theorem c3_add_reports_changed (env : Env) (p : ModuleParams)
    (hlib : env.hasLib = true)
    (hop : p.operation = "add")
    (hdg : dgCheckFails env p = false)
    (hcreate : env.createError = none) :
    (mainRun env p).result = .exitJson true (addOkMsg p.rule_name) none ∧
    (mainRun env p).calls =
      preCalls env p ++ [.createRule (create_security_rule (mainBuildKwargs p))] := by
  rw [mainRun_eq_dispatch env p hlib hdg]
  unfold dispatchRun
  rw [hop, hcreate]
  simp [add_rule]

/-- Parameters of an add invocation. -/
def sshAddParams : ModuleParams :=
  { ip_address := "192.0.2.10"
    password := some "admin"
    operation := "add"
    rule_name := "SSH permit"
    from_zone := ["public"]
    to_zone := ["private"]
    destination := ["1.1.1.1"]
    application := ["ssh"] }

/-- A firewall environment whose refreshed rulebase ALREADY contains a rule
named "SSH permit": the add still reports changed=true. -/
def fwEnvDup : Env :=
  { hasLib := true
    device := .firewall
    refreshedRules := [create_security_rule (mainBuildKwargs sshAddParams)] }

theorem c3_witness :
    fwEnvDup.hasLib = true ∧
    sshAddParams.operation = "add" ∧
    dgCheckFails fwEnvDup sshAddParams = false ∧
    fwEnvDup.createError = none ∧
    (∃ r, r ∈ fwEnvDup.refreshedRules ∧ r.name = sshAddParams.rule_name) ∧
    ((mainRun fwEnvDup sshAddParams).result =
        .exitJson true (addOkMsg sshAddParams.rule_name) none ∧
      (mainRun fwEnvDup sshAddParams).calls =
        preCalls fwEnvDup sshAddParams
          ++ [.createRule (create_security_rule (mainBuildKwargs sshAddParams))]) :=
  ⟨rfl, rfl, by decide, rfl,
    ⟨create_security_rule (mainBuildKwargs sshAddParams), by decide⟩,
    c3_add_reports_changed fwEnvDup sshAddParams rfl rfl (by decide) rfl⟩

/-- Panorama environment that does contain the requested device group. -/
def panoramaEnvCloudEdge : Env :=
  { hasLib := true
    device := .panorama [.deviceGroup "Cloud Edge"]
    refreshedRules := [] }

/-- Parameters targeting the existing device group "Cloud Edge". -/
def cloudEdgeParams : ModuleParams :=
  { ip_address := "192.0.2.1"
    password := some "admin"
    operation := "find"
    rule_name := "SSH permit"
    devicegroup := some "Cloud Edge" }

/-- C4 (failing-input evaluation): against a Panorama where the named
device group "Cloud Edge" is confirmed to exist by `get_devicegroup`, the
located rulebase is a pre-rulebase attached to a `DeviceGroup` whose name
is the Python boolean `True` — not the supplied name: `main` stores the
boolean returned by `get_devicegroup` in `dev_group` and passes that
variable, not `devicegroup`, to `get_rulebase`. -/
theorem c4_rulebase_under_bool_not_name :
    get_devicegroup panoramaEnvCloudEdge.device cloudEdgeParams.devicegroup = true ∧
    dev_groupVal panoramaEnvCloudEdge cloudEdgeParams = .pyBool true ∧
    (mainRun panoramaEnvCloudEdge cloudEdgeParams).rulebase =
      some { parent := .preUnderGroup (.pyBool true), rules := [] } ∧
    RBParent.preUnderGroup (PyVal.pyBool true) ≠
      RBParent.preUnderGroup (PyVal.pyStr "Cloud Edge") := by
  decide

/-- C5: locating the rulebase fails with the device-group-not-found
message (naming the missing group) exactly when the target is a Panorama
and the truthy devicegroup argument is not among the refreshed device
groups; and against a firewall target the devicegroup argument is ignored
and the flat rulebase (with the refreshed rules) is located. -/
theorem c5_locator_failure_and_firewall_flat
    (env : Env) (p : ModuleParams) (s : String)
    (hlib : env.hasLib = true) :
    ((env.device.isPanorama = true → p.devicegroup = some s → s ≠ "" →
      get_devicegroup env.device p.devicegroup = false →
      (mainRun env p).result = .failJson
        ("\x27" ++ s ++ "\x27 device group not found in Panorama. Is the name correct?") ∧
      (mainRun env p).branch = .dgNotFound ∧
      (mainRun env p).rulebase = none) ∧
    (env.device = .firewall →
      (mainRun env p).rulebase =
        some { parent := .firewallFlat, rules := env.refreshedRules } ∧
      (mainRun env p).branch ≠ .dgNotFound)) := by
  constructor
  · intro hpan hdg hs hfind
    have hfail : dgCheckFails env p = true := by
      unfold dgCheckFails dgChecked
      rw [hpan, hfind, hdg]
      unfold pyTruthyStr
      simp [hs]
    have hmsg : dgNotFoundMsg p.devicegroup =
        "\x27" ++ s ++ "\x27 device group not found in Panorama. Is the name correct?" := by
      rw [hdg]; rfl
    unfold mainRun
    rw [hlib, hfail, hmsg]
    simp
  · intro hfw
    have hchk : dgChecked env p = false := by
      unfold dgChecked
      rw [hfw]
      simp [Device.isPanorama]
    have hfail : dgCheckFails env p = false := by
      unfold dgCheckFails
      rw [hchk]
      simp
    rw [mainRun_eq_dispatch env p hlib hfail]
    refine ⟨?_, ?_⟩
    · rw [dispatchRun_rulebase env p]
      unfold locatedRulebase get_rulebase
      rw [hfw]
    · rcases dispatchRun_branch env p with h | h | h | h <;> rw [h] <;> simp

end PanosSR

namespace PanosSR

/-- Panorama environment knowing the device groups "Prod" only. -/
def panoramaEnvProd : Env :=
  { hasLib := true
    device := .panorama [.deviceGroup "Prod", .other]
    refreshedRules := [] }

/-- Parameters naming a device group absent from Panorama. -/
def missingDgParams : ModuleParams :=
  { ip_address := "192.0.2.2"
    password := some "admin"
    operation := "delete"
    rule_name := "Allow telnet"
    devicegroup := some "DC Firewalls" }

theorem c5_witness :
    panoramaEnvProd.hasLib = true ∧
    ((mainRun panoramaEnvProd missingDgParams).result = .failJson
        ("\x27" ++ "DC Firewalls" ++
          "\x27 device group not found in Panorama. Is the name correct?") ∧
      (mainRun panoramaEnvProd missingDgParams).branch = .dgNotFound ∧
      (mainRun panoramaEnvProd missingDgParams).rulebase = none) :=
  ⟨rfl,
    (c5_locator_failure_and_firewall_flat panoramaEnvProd missingDgParams
        "DC Firewalls" rfl).1 (by decide) rfl (by decide) (by decide)⟩

/-- C6: for a delete invocation that reaches the dispatch: when no rule of
the given name is in the refreshed rulebase, `main` fails with the
rule-not-found message and submits no removal (the trace stays the
pre-dispatch trace, and `fail_json` reports no change); when a rule
matches, exactly one removal request for that rule is submitted and, if
the Device Client call does not raise, `main` exits with changed=true and
the success message; if the removal raises a `PanXapiError`, its message
is passed through verbatim as the failure message. -/
theorem c6_delete_behavior (env : Env) (p : ModuleParams)
    (hlib : env.hasLib = true)
    (hop : p.operation = "delete")
    (hdg : dgCheckFails env p = false) :
    (find_rule (locatedRulebase env p) p.rule_name = none →
      (mainRun env p).result = .failJson (ruleNotFoundMsg p.rule_name) ∧
      (mainRun env p).calls = preCalls env p) ∧
    (∀ m, find_rule (locatedRulebase env p) p.rule_name = some m →
      m.name = p.rule_name ∧
      (mainRun env p).calls = preCalls env p ++ [RemoteCall.deleteRule m.name] ∧
      (env.deleteError = none →
        (mainRun env p).result = .exitJson true (deleteOkMsg p.rule_name) none) ∧
      (∀ emsg, env.deleteError = some emsg →
        (mainRun env p).result = .failJson emsg)) := by
  constructor
  · intro hnone
    rw [mainRun_eq_dispatch env p hlib hdg]
    unfold dispatchRun
    rw [hop, hnone]
    simp
  · intro m hm
    refine ⟨find_rule_name_eq _ _ _ hm, ?_, ?_, ?_⟩
    · rw [mainRun_eq_dispatch env p hlib hdg]
      unfold dispatchRun
      rw [hop, hm]
      cases env.deleteError <;> simp
    · intro hde
      rw [mainRun_eq_dispatch env p hlib hdg]
      unfold dispatchRun
      rw [hop, hm, hde]
      simp
    · intro emsg hde
      rw [mainRun_eq_dispatch env p hlib hdg]
      unfold dispatchRun
      rw [hop, hm, hde]
      simp

/-- The rule the delete witness operates on. -/
def telnetRule : SecurityRule :=
  create_security_rule { rule_name := "Allow telnet", description := "" }

/-- Firewall environment whose refreshed rulebase holds `telnetRule`. -/
def fwEnvTelnet : Env :=
  { hasLib := true, device := .firewall, refreshedRules := [telnetRule] }

/-- Delete invocation parameters for `telnetRule`. -/
def delTelnetParams : ModuleParams :=
  { ip_address := "192.0.2.3"
    api_key := some "k"
    operation := "delete"
    rule_name := "Allow telnet" }

theorem c6_witness :
    (fwEnvTelnet.hasLib = true ∧
      delTelnetParams.operation = "delete" ∧
      dgCheckFails fwEnvTelnet delTelnetParams = false ∧
      find_rule (locatedRulebase fwEnvTelnet delTelnetParams)
          delTelnetParams.rule_name = some telnetRule ∧
      fwEnvTelnet.deleteError = none) ∧
    (telnetRule.name = delTelnetParams.rule_name ∧
      (mainRun fwEnvTelnet delTelnetParams).calls =
        preCalls fwEnvTelnet delTelnetParams
          ++ [RemoteCall.deleteRule telnetRule.name] ∧
      (mainRun fwEnvTelnet delTelnetParams).result =
        .exitJson true (deleteOkMsg delTelnetParams.rule_name) none) := by
  have h := (c6_delete_behavior fwEnvTelnet delTelnetParams rfl rfl
      (by decide)).2 telnetRule (by decide)
  exact ⟨⟨rfl, rfl, by decide, by decide, rfl⟩, h.1, h.2.1, h.2.2.1 rfl⟩

/-- C7: for a find invocation that reaches the dispatch: when no rule of
the given name is in the refreshed rulebase, `main` terminally fails with
the rule-not-found message (not an empty-result success); when a rule
matches, `main` exits successfully with the hierarchical dump of that
rule, whose entry carries the searched rule name. -/
theorem c7_find_behavior (env : Env) (p : ModuleParams)
    (hlib : env.hasLib = true)
    (hop : p.operation = "find")
    (hdg : dgCheckFails env p = false) :
    (find_rule (locatedRulebase env p) p.rule_name = none →
      (mainRun env p).result = .failJson (ruleNotFoundMsg p.rule_name)) ∧
    (∀ m, find_rule (locatedRulebase env p) p.rule_name = some m →
      (mainRun env p).result =
        .exitJson false "Rule matched" (some (ruleDump m)) ∧
      (ruleDump m).entryName = p.rule_name) := by
  constructor
  · intro hnone
    rw [mainRun_eq_dispatch env p hlib hdg]
    unfold dispatchRun
    rw [hop, hnone]
    simp
  · intro m hm
    refine ⟨?_, ?_⟩
    · rw [mainRun_eq_dispatch env p hlib hdg]
      unfold dispatchRun
      rw [hop, hm]
      simp
    · simpa [ruleDump] using find_rule_name_eq _ _ _ hm

/-- The rule the find witness looks up. -/
def rdpRule : SecurityRule :=
  create_security_rule { rule_name := "Allow RDP to DCs", description := "" }

/-- Firewall environment whose refreshed rulebase holds `rdpRule`. -/
def fwEnvRdp : Env :=
  { hasLib := true, device := .firewall, refreshedRules := [rdpRule] }

/-- Find invocation parameters for `rdpRule`. -/
def findRdpParams : ModuleParams :=
  { ip_address := "192.0.2.4"
    password := some "pw"
    operation := "find"
    rule_name := "Allow RDP to DCs" }

theorem c7_witness :
    (fwEnvRdp.hasLib = true ∧
      findRdpParams.operation = "find" ∧
      dgCheckFails fwEnvRdp findRdpParams = false ∧
      find_rule (locatedRulebase fwEnvRdp findRdpParams)
          findRdpParams.rule_name = some rdpRule) ∧
    ((mainRun fwEnvRdp findRdpParams).result =
        .exitJson false "Rule matched" (some (ruleDump rdpRule)) ∧
      (ruleDump rdpRule).entryName = findRdpParams.rule_name) :=
  ⟨⟨rfl, rfl, by decide, by decide⟩,
    (c7_find_behavior fwEnvRdp findRdpParams rfl rfl (by decide)).2
      rdpRule (by decide)⟩

end PanosSR

namespace PanosSR

/-- C8: when the import of the Device Client libraries failed
(`HAS_LIB = False`), `main` fails fast with the missing-libraries message,
no remote call is issued (the trace is empty: no connection, no refresh,
no create or delete), and no rulebase is ever located. -/
theorem c8_missing_lib_fails_fast (env : Env) (p : ModuleParams)
    (h : env.hasLib = false) :
    (mainRun env p).result = .failJson "Missing required libraries." ∧
    (mainRun env p).calls = [] ∧
    (mainRun env p).branch = .missingLib ∧
    (mainRun env p).rulebase = none := by
  unfold mainRun
  rw [h]
  simp

/-- Environment where the Device Client import failed. -/
def noLibEnv : Env :=
  { hasLib := false, device := .firewall, refreshedRules := [] }

/-- Parameters for the missing-library witness. -/
def noLibParams : ModuleParams :=
  { ip_address := "192.0.2.5"
    password := some "pw"
    operation := "add"
    rule_name := "SSH permit" }

theorem c8_witness :
    noLibEnv.hasLib = false ∧
    ((mainRun noLibEnv noLibParams).result =
        .failJson "Missing required libraries." ∧
      (mainRun noLibEnv noLibParams).calls = [] ∧
      (mainRun noLibEnv noLibParams).branch = .missingLib ∧
      (mainRun noLibEnv noLibParams).rulebase = none) :=
  ⟨rfl, c8_missing_lib_fails_fast noLibEnv noLibParams rfl⟩

/-- C9: with the operation constrained to the `choices` list of
`argument_spec`, the trailing invalid-action failure branch is
unreachable: the run never ends in it, and once the dispatch is reached
exactly one of the find / delete / add branches executes. -/
theorem c9_invalid_action_unreachable (env : Env) (p : ModuleParams)
    (hop : validOperation p.operation = true) :
    (mainRun env p).branch ≠ .invalidB ∧
    (env.hasLib = true → dgCheckFails env p = false →
      (mainRun env p).branch = .findB ∨ (mainRun env p).branch = .deleteB ∨
      (mainRun env p).branch = .addB) := by
  have hcases : p.operation = "add" ∨ p.operation = "delete" ∨
      p.operation = "find" := by
    unfold validOperation at hop
    simpa [or_assoc] using hop
  have hdisp : (dispatchRun env p).branch = .findB ∨
      (dispatchRun env p).branch = .deleteB ∨
      (dispatchRun env p).branch = .addB := by
    unfold dispatchRun
    rcases hcases with h | h | h
    · rw [h]
      cases env.createError <;> simp
    · rw [h]
      rcases hfr : find_rule (locatedRulebase env p) p.rule_name with _ | m
      · simp [hfr]
      · cases env.deleteError <;> simp [hfr]
    · rw [h]
      rcases hfr : find_rule (locatedRulebase env p) p.rule_name with _ | m <;>
        simp [hfr]
  constructor
  · unfold mainRun
    split
    · simp
    · split
      · simp
      · rcases hdisp with h | h | h <;> rw [h] <;> simp
  · intro he1 he2
    rw [mainRun_eq_dispatch env p he1 he2]
    exact hdisp

theorem c9_witness :
    validOperation delTelnetParams.operation = true ∧
    ((mainRun fwEnvTelnet delTelnetParams).branch ≠ .invalidB ∧
      (fwEnvTelnet.hasLib = true →
        dgCheckFails fwEnvTelnet delTelnetParams = false →
        (mainRun fwEnvTelnet delTelnetParams).branch = .findB ∨
        (mainRun fwEnvTelnet delTelnetParams).branch = .deleteB ∨
        (mainRun fwEnvTelnet delTelnetParams).branch = .addB)) :=
  ⟨by decide,
    c9_invalid_action_unreachable fwEnvTelnet delTelnetParams (by decide)⟩

/-- C10: against a Panorama target with no devicegroup parameter supplied
(`None` after the argument defaults), nothing fails on the way to the
dispatch: `devicegroup` is not in the required parameters of
`argument_spec`, the existence check is skipped (its guard needs a truthy
devicegroup), and the locator builds a pre-rulebase nested under a
`DeviceGroup` whose name is the unset value `None`. -/
theorem c10_panorama_without_devicegroup (env : Env) (p : ModuleParams)
    (gs : List RefreshedObj)
    (hlib : env.hasLib = true)
    (hdev : env.device = .panorama gs)
    (hdg : p.devicegroup = none) :
    requiredParams.contains "devicegroup" = false ∧
    dgChecked env p = false ∧
    (mainRun env p).branch ≠ .missingLib ∧
    (mainRun env p).branch ≠ .dgNotFound ∧
    (mainRun env p).rulebase =
      some { parent := .preUnderGroup .pyNone, rules := env.refreshedRules } := by
  have hchk : dgChecked env p = false := by
    unfold dgChecked
    rw [hdg]
    simp [pyTruthyStr]
  have hfail : dgCheckFails env p = false := by
    unfold dgCheckFails
    rw [hchk]
    simp
  have heq := mainRun_eq_dispatch env p hlib hfail
  refine ⟨by decide, hchk, ?_, ?_, ?_⟩
  · rw [heq]
    rcases dispatchRun_branch env p with h | h | h | h <;> rw [h] <;> simp
  · rw [heq]
    rcases dispatchRun_branch env p with h | h | h | h <;> rw [h] <;> simp
  · rw [heq, dispatchRun_rulebase env p]
    unfold locatedRulebase dev_groupVal get_rulebase
    rw [hchk, hdev]
    simp

/-- Panorama environment for the witness of the skipped devicegroup check. -/
def panoramaEnvNoDg : Env :=
  { hasLib := true
    device := .panorama [.deviceGroup "Prod"]
    refreshedRules := [] }

/-- Parameters against Panorama with `devicegroup` left unset. -/
def noDgParams : ModuleParams :=
  { ip_address := "192.0.2.6"
    password := some "pw"
    operation := "find"
    rule_name := "Allow RDP to DCs" }

theorem c10_witness :
    panoramaEnvNoDg.hasLib = true ∧
    noDgParams.devicegroup = none ∧
    (requiredParams.contains "devicegroup" = false ∧
      dgChecked panoramaEnvNoDg noDgParams = false ∧
      (mainRun panoramaEnvNoDg noDgParams).branch ≠ .missingLib ∧
      (mainRun panoramaEnvNoDg noDgParams).branch ≠ .dgNotFound ∧
      (mainRun panoramaEnvNoDg noDgParams).rulebase =
        some { parent := .preUnderGroup .pyNone, rules := [] }) :=
  ⟨rfl, rfl,
    c10_panorama_without_devicegroup panoramaEnvNoDg noDgParams
      [.deviceGroup "Prod"] rfl rfl rfl⟩

end PanosSR
